import Mathlib

set_option maxRecDepth 8000

/-! Verification of the COE (container orchestration engine) cloud mixin
(`openstack/cloud/_coe.py`): the dictionary normalization of Magnum cluster,
cluster-template and magnum-service records, and the cache/delegation
behaviour of the CRUD helper methods. Upstream records are modelled as
ordered association lists over an abstract value type that includes the
Python `None` value, since `dict.pop(key, None)` conflates a missing key
with a `None`-valued one. -/

/-- A Python value as it occurs in the records this module reshapes:
`vnone` stands for Python `None`; the other constructors carry the
primitive payloads the Magnum API uses. -/
inductive PyVal where
  | vnone
  | vbool (b : Bool)
  | vint (n : Int)
  | vstr (s : String)
deriving DecidableEq

/-- An upstream record: a Python `dict` as an ordered association list. -/
abbrev Dict := List (String × PyVal)

/-- `d[k]` lookup: the value stored under `k`, if any. -/
def dlookup : Dict → String → Option PyVal
  | [], _ => Option.none
  | p :: rest, k => if p.1 = k then some p.2 else dlookup rest k

/-- `d.pop(k, ...)`'s removal effect: drop the entry with key `k`. -/
def derase : Dict → String → Dict
  | [], _ => []
  | p :: rest, k => if p.1 = k then derase rest k else p :: derase rest k

/-- `d[k] = v`: update in place when the key exists, else append. -/
def dinsert : Dict → String → PyVal → Dict
  | [], k, v => [(k, v)]
  | p :: rest, k, v => if p.1 = k then (k, v) :: rest else p :: dinsert rest k v

/-- Boolean membership in a list of keys. -/
def kmem : List String → String → Bool
  | [], _ => false
  | k :: ks, k' => if k' = k then true else kmem ks k'

/-- Drop every entry whose key is in `ks` (order of the rest preserved). -/
def eraseKeys (ks : List String) : Dict → Dict
  | [] => []
  | p :: rest => if kmem ks p.1 then eraseKeys ks rest else p :: eraseKeys ks rest

/-- A normalized record: the explicitly assigned top-level fields of `ret`,
and the residual working copy assigned to `ret['properties']`. -/
structure NormOut where
  fields : Dict
  properties : Dict
deriving DecidableEq

/-- The `for key in (...)` loop over optional keys: each key present in the
working dict is moved from the dict into `ret`. -/
def popOptional : List String → Dict → Dict → Dict × Dict
  | [], ret, d => (ret, d)
  | k :: ks, ret, d =>
    match dlookup d k with
    | Option.none => popOptional ks ret d
    | some v => popOptional ks (dinsert ret k v) (derase d k)

/-- The `for key in (...)` loop over required keys: `ret[key] = d.pop(key)`,
where a missing key raises `KeyError`. Returns `(ret, working dict, ok)`;
on failure the working dict reflects the pops made before the error. -/
def popRequired : List String → Dict → Dict → Dict × Dict × Bool
  | [], ret, d => (ret, d, true)
  | k :: ks, ret, d =>
    match dlookup d k with
    | Option.none => (ret, d, false)
    | some v => popRequired ks (dinsert ret k v) (derase d k)

/-- Run the required-key loop and package the outcome: `some` of the built
record on success, `Option.none` when a required key was missing
(`KeyError`). -/
def finishRequired (ks : List String) (ret d : Dict) : Option NormOut :=
  match popRequired ks ret d with
  | (ret2, d2, true) => some ⟨ret2, d2⟩
  | (_, _, false) => Option.none

/-- The optional Cluster schema keys of `_normalize_coe_cluster`. -/
def clusterOptionalKeys : List String :=
  ["status", "cluster_template_id", "stack_id", "keypair",
   "master_count", "create_timeout", "node_count", "name"]

/-- The optional ClusterTemplate keys of `_normalize_cluster_template`. -/
def templateOptionalKeys : List String :=
  ["fixed_network", "fixed_subnet", "http_proxy", "https_proxy",
   "labels", "master_flavor_id", "no_proxy"]

/-- The required ClusterTemplate pass-through keys. -/
def templateRequiredKeys : List String :=
  ["apiserver_port", "cluster_distro", "coe", "created_at",
   "dns_nameserver", "docker_volume_size", "external_network_id",
   "flavor_id", "image_id", "insecure_registry", "keypair_id", "name",
   "network_driver", "server_type", "updated_at", "volume_driver"]

/-- The required MagnumService keys of `_normalize_magnum_service`. -/
def serviceRequiredKeys : List String :=
  ["binary", "created_at", "disabled_reason", "host", "id",
   "report_count", "state", "updated_at"]

/-- Every key `_normalize_coe_cluster` consumes from the working copy. -/
def clusterConsumedKeys : List String := ["links", "uuid"] ++ clusterOptionalKeys

/-- The keys `_normalize_cluster_template` consumes before the two loops:
noise, `uuid`, the three renamed booleans, and `floating_ip_enabled`. -/
def tmplHeadKeys : List String :=
  ["links", "human_id", "model_name", "uuid", "public",
   "registry_enabled", "tls_disabled", "floating_ip_enabled"]

/-- Every key `_normalize_cluster_template` consumes from the working copy. -/
def templateConsumedKeys : List String :=
  tmplHeadKeys ++ templateOptionalKeys ++ templateRequiredKeys

/-- The noise keys `_normalize_magnum_service` discards. -/
def serviceNoiseKeys : List String := ["links", "human_id", "model_name"]

/-- Every key `_normalize_magnum_service` consumes from the working copy. -/
def serviceConsumedKeys : List String := serviceNoiseKeys ++ serviceRequiredKeys

/-- The required keys of `_normalize_cluster_template`: the 16 pass-through
keys plus `uuid` and the three renamed boolean keys. -/
def templateMandatoryKeys : List String :=
  ["uuid", "public", "registry_enabled", "tls_disabled"] ++ templateRequiredKeys

/-- The `ret` of `_normalize_coe_cluster` before the optional-key loop:
`id`, `location`, and in non-strict mode the legacy `uuid`. -/
def coeRet (strict : Bool) (loc cid : PyVal) : Dict :=
  let ret := dinsert (dinsert [] "id" cid) "location" loc
  if strict then ret else dinsert ret "uuid" cid

/-- The `ret` of `_normalize_cluster_template` before the two loops:
`id`, `location`, the three renamed booleans, and in non-strict mode the
legacy names plus `floating_ip_enabled` when its popped value is not None. -/
def tmplRet (strict : Bool) (loc ctid pubv regv tlsv fip : PyVal) : Dict :=
  let ret := dinsert (dinsert [] "id" ctid) "location" loc
  let ret := dinsert ret "is_public" pubv
  let ret := dinsert ret "is_registry_enabled" regv
  let ret := dinsert ret "is_tls_disabled" tlsv
  if strict then ret
  else
    let ret := dinsert ret "uuid" ctid
    let ret := if fip = PyVal.vnone then ret else dinsert ret "floating_ip_enabled" fip
    let ret := dinsert ret "public" pubv
    let ret := dinsert ret "registry_enabled" regv
    dinsert ret "tls_disabled" tlsv

/-- `_normalize_coe_cluster`: normalize a Magnum COE cluster record.
Consumes `links` as noise, requires `uuid` (a missing `uuid` raises, giving
`Option.none` here), then moves each present optional key into `ret`; the
residue of the working copy becomes `properties`. -/
def _normalize_coe_cluster (strict : Bool) (loc : PyVal) (d0 : Dict) :
    Option NormOut :=
  let d := derase d0 "links"
  match dlookup d "uuid" with
  | Option.none => Option.none
  | some cid =>
    let pr := popOptional clusterOptionalKeys (coeRet strict loc cid) (derase d "uuid")
    some ⟨pr.1, pr.2⟩

/-- `_normalize_cluster_template`: normalize a Magnum cluster template.
Discards `links`/`human_id`/`model_name`, pops the required `uuid`,
`public`, `registry_enabled`, `tls_disabled`, pops `floating_ip_enabled`
with default None, runs the optional-key loop and the required-key loop;
a missing required key raises `KeyError`, giving `Option.none` here. -/
def _normalize_cluster_template (strict : Bool) (loc : PyVal) (d0 : Dict) :
    Option NormOut :=
  let d := derase (derase (derase d0 "links") "human_id") "model_name"
  match dlookup d "uuid" with
  | Option.none => Option.none
  | some ctid =>
    let d := derase d "uuid"
    match dlookup d "public" with
    | Option.none => Option.none
    | some pubv =>
      let d := derase d "public"
      match dlookup d "registry_enabled" with
      | Option.none => Option.none
      | some regv =>
        let d := derase d "registry_enabled"
        match dlookup d "tls_disabled" with
        | Option.none => Option.none
        | some tlsv =>
          let d := derase d "tls_disabled"
          let fip := (dlookup d "floating_ip_enabled").getD PyVal.vnone
          let d := derase d "floating_ip_enabled"
          let pr := popOptional templateOptionalKeys
            (tmplRet strict loc ctid pubv regv tlsv fip) d
          finishRequired templateRequiredKeys pr.1 pr.2

/-- `_normalize_magnum_service`: normalize a Magnum service record.
Discards the three noise keys, then pops all eight required keys. -/
def _normalize_magnum_service (loc : PyVal) (d0 : Dict) : Option NormOut :=
  let d := derase (derase (derase d0 "links") "human_id") "model_name"
  finishRequired serviceRequiredKeys (dinsert [] "location" loc) d



/-- A sample upstream cluster record carrying a `human_id` entry. -/
def exClusterRec : Dict :=
  [("uuid", PyVal.vstr "u1"), ("human_id", PyVal.vstr "pretty"),
   ("status", PyVal.vstr "CREATE_COMPLETE"), ("extra", PyVal.vint 7)]

/-- A sample upstream cluster-template record containing every mandatory
key and one unrecognized key, without `floating_ip_enabled`. -/
def exTemplateBase : Dict :=
  [("uuid", PyVal.vstr "t1"), ("public", PyVal.vbool false),
   ("registry_enabled", PyVal.vbool false), ("tls_disabled", PyVal.vbool false),
   ("apiserver_port", PyVal.vint 8080), ("cluster_distro", PyVal.vstr "fedora"),
   ("coe", PyVal.vstr "kubernetes"), ("created_at", PyVal.vstr "2016"),
   ("dns_nameserver", PyVal.vstr "8.8.8.8"), ("docker_volume_size", PyVal.vint 5),
   ("external_network_id", PyVal.vstr "net"), ("flavor_id", PyVal.vstr "m1"),
   ("image_id", PyVal.vstr "img"), ("insecure_registry", PyVal.vstr "reg"),
   ("keypair_id", PyVal.vstr "kp"), ("name", PyVal.vstr "tmpl"),
   ("network_driver", PyVal.vstr "flannel"), ("server_type", PyVal.vstr "vm"),
   ("updated_at", PyVal.vstr "2017"), ("volume_driver", PyVal.vstr "cinder"),
   ("extra", PyVal.vint 9)]

/-- `exTemplateBase` plus a true `floating_ip_enabled`. -/
def exTemplateFipTrue : Dict :=
  ("floating_ip_enabled", PyVal.vbool true) :: exTemplateBase

/-- `exTemplateBase` plus a None-valued `floating_ip_enabled`. -/
def exTemplateFipNone : Dict :=
  ("floating_ip_enabled", PyVal.vnone) :: exTemplateBase

/-- A sample upstream magnum-service record with a `human_id` entry. -/
def exServiceRec : Dict :=
  [("binary", PyVal.vstr "magnum-conductor"), ("created_at", PyVal.vstr "2016"),
   ("disabled_reason", PyVal.vnone), ("host", PyVal.vstr "h1"),
   ("id", PyVal.vint 1), ("report_count", PyVal.vint 7),
   ("state", PyVal.vstr "up"), ("human_id", PyVal.vstr "hid"),
   ("extra", PyVal.vint 3), ("updated_at", PyVal.vstr "2017")]

/-- The final state of the working copy of `_normalize_coe_cluster` (the
`coe_cluster.copy()` object), including at a `KeyError`: all pops mutate
only this copy, and its evolution does not depend on `ret`, so the
optional-key loop is replayed with an empty `ret`. -/
def coe_cluster_work (d0 : Dict) : Dict :=
  let d := derase d0 "links"
  match dlookup d "uuid" with
  | Option.none => d
  | some _ => (popOptional clusterOptionalKeys [] (derase d "uuid")).2

/-- The final state of the working copy of `_normalize_cluster_template`,
including at each possible `KeyError` point. -/
def cluster_template_work (d0 : Dict) : Dict :=
  let d := derase (derase (derase d0 "links") "human_id") "model_name"
  match dlookup d "uuid" with
  | Option.none => d
  | some _ =>
    let d := derase d "uuid"
    match dlookup d "public" with
    | Option.none => d
    | some _ =>
      let d := derase d "public"
      match dlookup d "registry_enabled" with
      | Option.none => d
      | some _ =>
        let d := derase d "registry_enabled"
        match dlookup d "tls_disabled" with
        | Option.none => d
        | some _ =>
          let d := derase (derase d "tls_disabled") "floating_ip_enabled"
          (popRequired templateRequiredKeys []
            (popOptional templateOptionalKeys [] d).2).2.1

/-- The final state of the working copy of `_normalize_magnum_service`. -/
def magnum_service_work (d0 : Dict) : Dict :=
  (popRequired serviceRequiredKeys []
    (derase (derase (derase d0 "links") "human_id") "model_name")).2.1

/-- A heap of Python dict objects: a store indexed by object identity plus
the next fresh address. -/
structure Heap where
  store : Nat -> Dict
  next : Nat

/-- Read the dict object at address `a`. -/
def readH (h : Heap) (a : Nat) : Dict := h.store a

/-- Overwrite the dict object at address `a` (mutation of that object). -/
def writeH (h : Heap) (a : Nat) (d : Dict) : Heap :=
  Heap.mk (fun x => if x = a then d else h.store x) h.next

/-- `d.copy()`: allocate a fresh dict object holding the value `d`. -/
def allocH (h : Heap) (d : Dict) : Heap × Nat :=
  (Heap.mk (fun x => if x = h.next then d else h.store x) (h.next + 1), h.next)

/-- Heap-level `_normalize_coe_cluster`: copy the record at `a`, mutate only
the copy, return the final heap together with the result. -/
def _normalize_coe_cluster_heap (strict : Bool) (loc : PyVal) (h : Heap)
    (a : Nat) : Heap × Option NormOut :=
  let pr := allocH h (readH h a)
  (writeH pr.1 pr.2 (coe_cluster_work (readH pr.1 pr.2)),
   _normalize_coe_cluster strict loc (readH pr.1 pr.2))

/-- Heap-level `_normalize_cluster_template`. -/
def _normalize_cluster_template_heap (strict : Bool) (loc : PyVal) (h : Heap)
    (a : Nat) : Heap × Option NormOut :=
  let pr := allocH h (readH h a)
  (writeH pr.1 pr.2 (cluster_template_work (readH pr.1 pr.2)),
   _normalize_cluster_template strict loc (readH pr.1 pr.2))

/-- Heap-level `_normalize_magnum_service`. -/
def _normalize_magnum_service_heap (loc : PyVal) (h : Heap)
    (a : Nat) : Heap × Option NormOut :=
  let pr := allocH h (readH h a)
  (writeH pr.1 pr.2 (magnum_service_work (readH pr.1 pr.2)),
   _normalize_magnum_service loc (readH pr.1 pr.2))

/-- An upstream Magnum record as seen by the entity resolver: its unique id
and its name. -/
structure Rec where
  rid : String
  rname : String
deriving DecidableEq

/-- The observable state of the mixin: the upstream lists, the two memoized
list caches, the trace of upstream mutation calls issued so far, and the
upstream id counter. -/
structure CloudSt where
  upstreamClusters : List Rec
  upstreamTemplates : List Rec
  clusterCache : Option (List Rec)
  templateCache : Option (List Rec)
  clusterDeleteCalls : List Rec
  templateDeleteCalls : List Rec
  clusterUpdateCalls : List Rec
  templateUpdateCalls : List Rec
  nextId : Nat
deriving DecidableEq

/-- Modelled from the spec: `_utils._filter_list` / `_utils._get_entity`
(not under `src/`) resolve a name-or-id against a fetched list, yielding
the matching entity or absence. -/
def resolveEntity (l : List Rec) (n : String) : Option Rec :=
  l.find? (fun r => r.rid == n || r.rname == n)

/-- Modelled from the spec: `@_utils.cache_on_arguments()` (not under
`src/`) memoizes `list_coe_clusters` per instance until invalidated - a
hit returns the cached list, a miss fetches upstream and stores it. -/
def list_coe_clusters (s : CloudSt) : CloudSt × List Rec :=
  match s.clusterCache with
  | some l => (s, l)
  | Option.none =>
    ({s with clusterCache := some s.upstreamClusters}, s.upstreamClusters)

/-- Modelled from the spec: the memoized `list_cluster_templates`. -/
def list_cluster_templates (s : CloudSt) : CloudSt × List Rec :=
  match s.templateCache with
  | some l => (s, l)
  | Option.none =>
    ({s with templateCache := some s.upstreamTemplates}, s.upstreamTemplates)

/-- `get_coe_cluster`: list through the cache, then resolve name-or-id. -/
def get_coe_cluster (s : CloudSt) (n : String) : CloudSt × Option Rec :=
  let pr := list_coe_clusters s
  (pr.1, resolveEntity pr.2 n)

/-- `get_cluster_template`: list through the cache, then resolve. -/
def get_cluster_template (s : CloudSt) (n : String) : CloudSt × Option Rec :=
  let pr := list_cluster_templates s
  (pr.1, resolveEntity pr.2 n)

/-- Modelled from the spec: `self.list_coe_clusters.invalidate(self)`. -/
def invalidateClusterCache (s : CloudSt) : CloudSt :=
  {s with clusterCache := Option.none}

/-- Modelled from the spec: the upstream SDK `delete_cluster` removes the
record from the upstream list; the call is recorded in the trace. -/
def proxy_delete_cluster (s : CloudSt) (c : Rec) : CloudSt :=
  {s with upstreamClusters := s.upstreamClusters.filter (fun r => !(r == c)),
          clusterDeleteCalls := s.clusterDeleteCalls ++ [c]}

/-- Modelled from the spec: the upstream SDK `delete_cluster_template`. -/
def proxy_delete_cluster_template (s : CloudSt) (c : Rec) : CloudSt :=
  {s with upstreamTemplates := s.upstreamTemplates.filter (fun r => !(r == c)),
          templateDeleteCalls := s.templateDeleteCalls ++ [c]}

/-- Modelled from the spec: the upstream SDK `update_cluster` applies the
update (payload abstracted away) and returns the updated record. -/
def proxy_update_cluster (s : CloudSt) (c : Rec) : CloudSt × Rec :=
  ({s with clusterUpdateCalls := s.clusterUpdateCalls ++ [c]}, c)

/-- Modelled from the spec: the upstream SDK `update_cluster_template`. -/
def proxy_update_cluster_template (s : CloudSt) (c : Rec) : CloudSt × Rec :=
  ({s with templateUpdateCalls := s.templateUpdateCalls ++ [c]}, c)

/-- Modelled from the spec: the upstream SDK `create_cluster` makes a new
record under a server-assigned fresh id and appends it upstream. -/
def proxy_create_cluster (s : CloudSt) (nm : String) : CloudSt × Rec :=
  let c : Rec := Rec.mk (String.append "uuid-" (toString s.nextId)) nm
  ({s with upstreamClusters := s.upstreamClusters ++ [c],
           nextId := s.nextId + 1}, c)

/-- `create_coe_cluster`: delegate creation upstream, then invalidate the
cluster-list cache; returns the created record unnormalized. -/
def create_coe_cluster (s : CloudSt) (nm tid : String) : CloudSt × Rec :=
  let pr := proxy_create_cluster s nm
  (invalidateClusterCache pr.1, pr.2)

/-- `delete_coe_cluster`: resolve first; on absence log and return `false`;
otherwise delete upstream, invalidate the cache, return `true`. -/
def delete_coe_cluster (s : CloudSt) (n : String) : CloudSt × Bool :=
  let pr := get_coe_cluster s n
  match pr.2 with
  | Option.none => (pr.1, false)
  | some c => (invalidateClusterCache (proxy_delete_cluster pr.1 c), true)

/-- `delete_cluster_template`: resolve first; on absence return `false`;
otherwise delete upstream and return `true` (no cache invalidation). -/
def delete_cluster_template (s : CloudSt) (n : String) : CloudSt × Bool :=
  let pr := get_cluster_template s n
  match pr.2 with
  | Option.none => (pr.1, false)
  | some c => (proxy_delete_cluster_template pr.1 c, true)

/-- `update_coe_cluster`: invalidate the cluster cache, re-resolve, raise
"COE cluster %s not found." when resolution fails, else delegate the
update upstream. -/
def update_coe_cluster (s : CloudSt) (n : String) : CloudSt × Except String Rec :=
  let s1 := invalidateClusterCache s
  let pr := get_coe_cluster s1 n
  match pr.2 with
  | Option.none =>
    (pr.1, Except.error (String.append (String.append "COE cluster " n) " not found."))
  | some c =>
    let pu := proxy_update_cluster pr.1 c
    (pu.1, Except.ok pu.2)

/-- `update_cluster_template`: resolve through the cache, raise
"Cluster template %s not found." when resolution fails, else delegate
upstream (no cache invalidation). -/
def update_cluster_template (s : CloudSt) (n : String) :
    CloudSt × Except String Rec :=
  let pr := get_cluster_template s n
  match pr.2 with
  | Option.none =>
    (pr.1, Except.error (String.append (String.append "Cluster template " n) " not found."))
  | some c =>
    let pu := proxy_update_cluster_template pr.1 c
    (pu.1, Except.ok pu.2)

/-- The list `get_coe_cluster` resolves against: the cached list when the
cache is valid, the upstream list otherwise. -/
def effectiveClusters (s : CloudSt) : List Rec :=
  match s.clusterCache with
  | some l => l
  | Option.none => s.upstreamClusters

/-- The list `get_cluster_template` resolves against. -/
def effectiveTemplates (s : CloudSt) : List Rec :=
  match s.templateCache with
  | some l => l
  | Option.none => s.upstreamTemplates

/-- A state with a cold (invalid) cluster cache and one upstream cluster. -/
def stColdCache : CloudSt :=
  CloudSt.mk [Rec.mk "u1" "c1"] [] Option.none Option.none [] [] [] [] 0

/-- A state whose template cache is warm and agrees with upstream. -/
def stWarmTemplates : CloudSt :=
  CloudSt.mk [] [Rec.mk "t1" "tmpl"] Option.none (some [Rec.mk "t1" "tmpl"])
    [] [] [] [] 0

/-- A state whose cluster cache is warm and agrees with upstream. -/
def stWarmClusters : CloudSt :=
  CloudSt.mk [Rec.mk "u1" "c1"] [] (some [Rec.mk "u1" "c1"]) Option.none
    [] [] [] [] 0

/-- The documented Cluster key rename: upstream `uuid` becomes `id`. -/
def renameCluster (k : String) : String := if k = "uuid" then "id" else k

/-- The documented ClusterTemplate key renames. -/
def renameTemplate (k : String) : String :=
  if k = "uuid" then "id"
  else if k = "public" then "is_public"
  else if k = "registry_enabled" then "is_registry_enabled"
  else if k = "tls_disabled" then "is_tls_disabled"
  else k

/-- Lookup in the merged record `{..fixed fields.., **properties}`:
`properties` is merged last, so it wins on key collisions. -/
def mlookup (r : NormOut) (k : String) : Option PyVal :=
  match dlookup r.properties k with
  | some v => some v
  | Option.none => dlookup r.fields k

/-- The keys `tmplRet` may bind. -/
def tmplRetKeys : List String :=
  ["id", "location", "is_public", "is_registry_enabled", "is_tls_disabled",
   "uuid", "floating_ip_enabled", "public", "registry_enabled", "tls_disabled"]

/-- The keys `coeRet` may bind. -/
def coeRetKeys : List String := ["id", "location", "uuid"]

theorem dlookup_derase_self (d : Dict) (k : String) :
    dlookup (derase d k) k = Option.none := by
  induction d with
  | nil => simp [derase, dlookup]
  | cons p rest ih =>
    by_cases hp : p.1 = k
    · simp [derase, hp, ih]
    · simp [derase, dlookup, hp, ih]

theorem dlookup_derase_ne (d : Dict) (k k' : String) (h : k ≠ k') :
    dlookup (derase d k') k = dlookup d k := by
  induction d with
  | nil => simp [derase]
  | cons p rest ih =>
    by_cases hp : p.1 = k'
    · simp [derase, hp, dlookup, Ne.symm h, ih]
    · by_cases hq : p.1 = k
      · simp [derase, hp, dlookup, hq, h]
      · simp [derase, hp, dlookup, hq, ih]

theorem dlookup_dinsert_self (d : Dict) (k : String) (v : PyVal) :
    dlookup (dinsert d k v) k = some v := by
  induction d with
  | nil => simp [dinsert, dlookup]
  | cons p rest ih =>
    by_cases hp : p.1 = k
    · simp [dinsert, hp, dlookup]
    · simp [dinsert, hp, dlookup, ih]

theorem dlookup_dinsert_ne (d : Dict) (k k' : String) (v : PyVal) (h : k ≠ k') :
    dlookup (dinsert d k' v) k = dlookup d k := by
  induction d with
  | nil => simp [dinsert, dlookup, Ne.symm h]
  | cons p rest ih =>
    by_cases hp : p.1 = k'
    · simp [dinsert, hp, dlookup, Ne.symm h, ih]
    · by_cases hq : p.1 = k
      · simp [dinsert, hp, dlookup, hq, h]
      · simp [dinsert, hp, dlookup, hq, ih]

theorem kmem_append (ks ks' : List String) (k : String) :
    kmem (ks ++ ks') k = (kmem ks k || kmem ks' k) := by
  induction ks with
  | nil => simp [kmem]
  | cons a ks ih =>
    by_cases h : k = a
    · simp [kmem, h]
    · simp [kmem, h, ih]

theorem kmem_iff (ks : List String) (k : String) : kmem ks k = true ↔ k ∈ ks := by
  induction ks with
  | nil => simp [kmem]
  | cons a ks ih =>
    by_cases h : k = a
    · simp [kmem, h]
    · simp [kmem, h, ih]

theorem eraseKeys_nil (d : Dict) : eraseKeys [] d = d := by
  induction d with
  | nil => simp [eraseKeys]
  | cons p rest ih => simp [eraseKeys, kmem, ih]

theorem dlookup_eraseKeys (ks : List String) (d : Dict) (k : String) :
    dlookup (eraseKeys ks d) k
      = if kmem ks k then Option.none else dlookup d k := by
  induction d with
  | nil => simp [eraseKeys, dlookup]
  | cons p rest ih =>
    by_cases h1 : kmem ks p.1
    · by_cases h2 : p.1 = k
      · subst h2
        simp [eraseKeys, h1, ih]
      · simp [eraseKeys, h1, ih, dlookup, h2]
    · by_cases h2 : p.1 = k
      · subst h2
        have h1f : kmem ks p.1 = false := by
          revert h1; cases kmem ks p.1 <;> simp
        simp [eraseKeys, h1f, dlookup]
      · simp [eraseKeys, h1, dlookup, h2, ih]

theorem eraseKeys_eraseKeys (ks ks' : List String) (d : Dict) :
    eraseKeys ks' (eraseKeys ks d) = eraseKeys (ks ++ ks') d := by
  induction d with
  | nil => simp [eraseKeys]
  | cons p rest ih =>
    by_cases h1 : kmem ks p.1
    · simp [eraseKeys, h1, ih, kmem_append]
    · by_cases h2 : kmem ks' p.1
      · simp [eraseKeys, h1, h2, ih, kmem_append]
      · simp [eraseKeys, h1, h2, ih, kmem_append]

theorem derase_eq_eraseKeys (d : Dict) (k : String) :
    derase d k = eraseKeys [k] d := by
  induction d with
  | nil => simp [derase, eraseKeys]
  | cons p rest ih =>
    by_cases h : p.1 = k
    · simp [derase, h, eraseKeys, kmem, ih]
    · simp [derase, h, eraseKeys, kmem, ih]

theorem eraseKeys_cons_absent (ks : List String) (d : Dict) (k : String)
    (h : dlookup d k = Option.none) :
    eraseKeys (k :: ks) d = eraseKeys ks d := by
  induction d with
  | nil => simp [eraseKeys]
  | cons p rest ih =>
    by_cases h1 : p.1 = k
    · rw [dlookup, if_pos h1] at h
      exact absurd h (by simp)
    · rw [dlookup, if_neg h1] at h
      simp [eraseKeys, kmem, h1, ih h]

theorem popOptional_dict (ks : List String) (ret d : Dict) :
    (popOptional ks ret d).2 = eraseKeys ks d := by
  induction ks generalizing ret d with
  | nil => simp [popOptional, eraseKeys_nil]
  | cons k ks ih =>
    cases hk : dlookup d k with
    | none =>
      rw [popOptional, hk, ih, eraseKeys_cons_absent ks d k hk]
    | some v =>
      rw [popOptional, hk, ih, derase_eq_eraseKeys, eraseKeys_eraseKeys]
      rfl

theorem popRequired_dict_ok (ks : List String) (ret d : Dict)
    (h : (popRequired ks ret d).2.2 = true) :
    (popRequired ks ret d).2.1 = eraseKeys ks d := by
  induction ks generalizing ret d with
  | nil => simp [popRequired, eraseKeys_nil]
  | cons k ks ih =>
    cases hk : dlookup d k with
    | none =>
      rw [popRequired, hk] at h
      exact absurd h (by simp)
    | some v =>
      rw [popRequired, hk] at h ⊢
      rw [ih _ _ h, derase_eq_eraseKeys, eraseKeys_eraseKeys]
      rfl

theorem popRequired_fail_of_missing (ks : List String) (ret d : Dict)
    (k : String) (hk : k ∈ ks) (h : dlookup d k = Option.none) :
    (popRequired ks ret d).2.2 = false := by
  induction ks generalizing ret d with
  | nil => exact absurd hk (by simp)
  | cons a ks ih =>
    cases ha : dlookup d a with
    | none => rw [popRequired, ha]
    | some v =>
      rw [popRequired, ha]
      have hne : k ≠ a := fun he => by
        rw [he, ha] at h
        exact Option.noConfusion h
      have hk2 : k ∈ ks := by
        cases List.mem_cons.mp hk with
        | inl he => exact absurd he hne
        | inr h2 => exact h2
      exact ih _ _ hk2 (by rw [dlookup_derase_ne d k a hne]; exact h)

theorem popRequired_dict_none (ks : List String) (ret d : Dict) (k : String)
    (h : dlookup d k = Option.none) :
    dlookup (popRequired ks ret d).2.1 k = Option.none := by
  induction ks generalizing ret d with
  | nil => simpa [popRequired] using h
  | cons a ks ih =>
    cases ha : dlookup d a with
    | none => simpa [popRequired, ha] using h
    | some v =>
      rw [popRequired, ha]
      refine ih _ _ ?_
      by_cases he : k = a
      · rw [he, dlookup_derase_self]
      · rw [dlookup_derase_ne d k a he]; exact h

theorem popOptional_ret_notin (ks : List String) (ret d : Dict) (k : String)
    (hk : kmem ks k = false) :
    dlookup (popOptional ks ret d).1 k = dlookup ret k := by
  induction ks generalizing ret d with
  | nil => simp [popOptional]
  | cons a ks ih =>
    rw [kmem] at hk
    by_cases he : k = a
    · rw [if_pos he] at hk
      exact absurd hk (by simp)
    · rw [if_neg he] at hk
      cases ha : dlookup d a with
      | none => rw [popOptional, ha, ih _ _ hk]
      | some v =>
        rw [popOptional, ha, ih _ _ hk, dlookup_dinsert_ne ret k a v he]

theorem popRequired_ret_notin (ks : List String) (ret d : Dict) (k : String)
    (hk : kmem ks k = false) :
    dlookup (popRequired ks ret d).1 k = dlookup ret k := by
  induction ks generalizing ret d with
  | nil => simp [popRequired]
  | cons a ks ih =>
    rw [kmem] at hk
    by_cases he : k = a
    · rw [if_pos he] at hk
      exact absurd hk (by simp)
    · rw [if_neg he] at hk
      cases ha : dlookup d a with
      | none => rw [popRequired, ha]
      | some v =>
        rw [popRequired, ha, ih _ _ hk, dlookup_dinsert_ne ret k a v he]

theorem kmem_eq_false (ks : List String) (k : String) (h : k ∉ ks) :
    kmem ks k = false := by
  cases hb : kmem ks k with
  | false => rfl
  | true => exact absurd ((kmem_iff ks k).mp hb) h

theorem popOptional_ret_in (ks : List String) (ret d : Dict) (k : String)
    (hnd : ks.Nodup) (hk : k ∈ ks) (hr : dlookup ret k = Option.none) :
    dlookup (popOptional ks ret d).1 k = dlookup d k := by
  induction ks generalizing ret d with
  | nil => exact absurd hk (by simp)
  | cons a ks ih =>
    by_cases he : k = a
    · subst he
      have hnotin : k ∉ ks := (List.nodup_cons.mp hnd).1
      cases ha : dlookup d k with
      | none =>
        rw [popOptional, ha, popOptional_ret_notin ks ret d k (kmem_eq_false ks k hnotin), hr]
      | some v =>
        rw [popOptional, ha,
          popOptional_ret_notin ks _ _ k (kmem_eq_false ks k hnotin),
          dlookup_dinsert_self]
    · have hk2 : k ∈ ks := by
        cases List.mem_cons.mp hk with
        | inl h2 => exact absurd h2 he
        | inr h2 => exact h2
      have hnd2 : ks.Nodup := (List.nodup_cons.mp hnd).2
      cases ha : dlookup d a with
      | none => rw [popOptional, ha, ih _ _ hnd2 hk2 hr]
      | some v =>
        rw [popOptional, ha,
          ih _ _ hnd2 hk2 (by rw [dlookup_dinsert_ne ret k a v he]; exact hr),
          dlookup_derase_ne d k a he]

theorem popRequired_ret_in (ks : List String) (ret d : Dict) (k : String)
    (hnd : ks.Nodup) (hk : k ∈ ks) (hr : dlookup ret k = Option.none)
    (hok : (popRequired ks ret d).2.2 = true) :
    dlookup (popRequired ks ret d).1 k = dlookup d k := by
  induction ks generalizing ret d with
  | nil => exact absurd hk (by simp)
  | cons a ks ih =>
    by_cases he : k = a
    · subst he
      have hnotin : k ∉ ks := (List.nodup_cons.mp hnd).1
      cases ha : dlookup d k with
      | none => rw [popRequired, ha] at hok; exact absurd hok (by simp)
      | some v =>
        rw [popRequired, ha,
          popRequired_ret_notin ks _ _ k (kmem_eq_false ks k hnotin),
          dlookup_dinsert_self]
    · have hk2 : k ∈ ks := by
        cases List.mem_cons.mp hk with
        | inl h2 => exact absurd h2 he
        | inr h2 => exact h2
      have hnd2 : ks.Nodup := (List.nodup_cons.mp hnd).2
      cases ha : dlookup d a with
      | none => rw [popRequired, ha] at hok; exact absurd hok (by simp)
      | some v =>
        rw [popRequired, ha] at hok ⊢
        rw [ih _ _ hnd2 hk2 (by rw [dlookup_dinsert_ne ret k a v he]; exact hr) hok,
          dlookup_derase_ne d k a he]

theorem dlookup_derase (d : Dict) (k k' : String) :
    dlookup (derase d k') k = if k = k' then Option.none else dlookup d k := by
  by_cases h : k = k'
  · subst h
    simp [dlookup_derase_self]
  · simp [dlookup_derase_ne d k k' h, h]

theorem dlookup_eraseKeys_none (ks : List String) (d : Dict) (k : String)
    (h : dlookup d k = Option.none) :
    dlookup (eraseKeys ks d) k = Option.none := by
  rw [dlookup_eraseKeys, h]
  exact ite_self _

theorem finishRequired_ok (ks : List String) (ret d : Dict)
    (h : (popRequired ks ret d).2.2 = true) :
    finishRequired ks ret d
      = some ⟨(popRequired ks ret d).1, eraseKeys ks d⟩ := by
  rcases hq : popRequired ks ret d with ⟨ret2, d2, ok⟩
  rw [hq] at h
  cases ok with
  | false => exact absurd h (by simp)
  | true =>
    rw [finishRequired, hq]
    have hd := popRequired_dict_ok ks ret d (by rw [hq])
    rw [hq] at hd
    simp at hd
    rw [hd]

theorem finishRequired_fail (ks : List String) (ret d : Dict)
    (h : (popRequired ks ret d).2.2 = false) :
    finishRequired ks ret d = Option.none := by
  rcases hq : popRequired ks ret d with ⟨ret2, d2, ok⟩
  rw [hq] at h
  cases ok with
  | true => exact absurd h (by simp)
  | false => rw [finishRequired, hq]

theorem finishRequired_some (ks : List String) (ret d : Dict) (r : NormOut)
    (h : finishRequired ks ret d = some r) :
    (popRequired ks ret d).2.2 = true
      ∧ r.fields = (popRequired ks ret d).1
      ∧ r.properties = eraseKeys ks d := by
  rcases hq : popRequired ks ret d with ⟨ret2, d2, ok⟩
  cases ok with
  | false =>
    rw [finishRequired, hq] at h
    exact absurd h (by simp)
  | true =>
    rw [finishRequired, hq] at h
    have h2 : NormOut.mk ret2 d2 = r := by simpa using h
    have hd : d2 = eraseKeys ks d := by
      have hd0 := popRequired_dict_ok ks ret d (by rw [hq])
      rw [hq] at hd0
      simpa using hd0
    subst h2
    simp [hd]

theorem coe_norm_none (strict : Bool) (loc : PyVal) (d : Dict)
    (hu : dlookup d "uuid" = Option.none) :
    _normalize_coe_cluster strict loc d = Option.none := by
  simp only [_normalize_coe_cluster]
  rw [dlookup_derase_ne d "uuid" "links" (by decide), hu]

theorem coe_norm_eq (strict : Bool) (loc : PyVal) (d : Dict) (cid : PyVal)
    (hu : dlookup d "uuid" = some cid) :
    _normalize_coe_cluster strict loc d
      = some ⟨(popOptional clusterOptionalKeys (coeRet strict loc cid)
                 (eraseKeys ["links", "uuid"] d)).1,
              eraseKeys clusterConsumedKeys d⟩ := by
  simp only [_normalize_coe_cluster]
  rw [dlookup_derase_ne d "uuid" "links" (by decide), hu]
  simp only [derase_eq_eraseKeys, eraseKeys_eraseKeys, popOptional_dict,
    clusterConsumedKeys, List.cons_append, List.nil_append]

theorem tmpl_norm_eq (strict : Bool) (loc : PyVal) (d : Dict)
    (ctid pubv regv tlsv : PyVal)
    (hu : dlookup d "uuid" = some ctid)
    (hp : dlookup d "public" = some pubv)
    (hg : dlookup d "registry_enabled" = some regv)
    (ht : dlookup d "tls_disabled" = some tlsv) :
    _normalize_cluster_template strict loc d
      = finishRequired templateRequiredKeys
          (popOptional templateOptionalKeys
            (tmplRet strict loc ctid pubv regv tlsv
              ((dlookup d "floating_ip_enabled").getD PyVal.vnone))
            (eraseKeys tmplHeadKeys d)).1
          (eraseKeys (tmplHeadKeys ++ templateOptionalKeys) d) := by
  simp only [_normalize_cluster_template, dlookup_derase]
  simp only [String.reduceEq, reduceIte, hu, hp, hg, ht]
  simp only [derase_eq_eraseKeys, eraseKeys_eraseKeys, popOptional_dict,
    tmplHeadKeys, List.cons_append, List.nil_append]

theorem svc_norm_eq (loc : PyVal) (d : Dict) :
    _normalize_magnum_service loc d
      = finishRequired serviceRequiredKeys (dinsert [] "location" loc)
          (eraseKeys serviceNoiseKeys d) := by
  simp only [_normalize_magnum_service, derase_eq_eraseKeys, eraseKeys_eraseKeys,
    serviceNoiseKeys, List.cons_append, List.nil_append]

theorem kmem_false_of_mem_all (ks1 ks2 : List String) (k : String)
    (hall : ks1.all (fun x => !(kmem ks2 x)) = true) (hk : k ∈ ks1) :
    kmem ks2 k = false := by
  have h2 := (List.all_eq_true.mp hall) k hk
  simpa using h2

theorem tmpl_none_uuid (strict : Bool) (loc : PyVal) (d : Dict)
    (hu : dlookup d "uuid" = Option.none) :
    _normalize_cluster_template strict loc d = Option.none := by
  simp only [_normalize_cluster_template, dlookup_derase]
  simp [hu]

theorem tmpl_none_public (strict : Bool) (loc : PyVal) (d : Dict)
    (hp : dlookup d "public" = Option.none) :
    _normalize_cluster_template strict loc d = Option.none := by
  cases hu : dlookup d "uuid" with
  | none => exact tmpl_none_uuid strict loc d hu
  | some ctid =>
    simp only [_normalize_cluster_template, dlookup_derase]
    simp [hu, hp]

theorem tmpl_none_registry (strict : Bool) (loc : PyVal) (d : Dict)
    (hg : dlookup d "registry_enabled" = Option.none) :
    _normalize_cluster_template strict loc d = Option.none := by
  cases hu : dlookup d "uuid" with
  | none => exact tmpl_none_uuid strict loc d hu
  | some ctid =>
    cases hp : dlookup d "public" with
    | none => exact tmpl_none_public strict loc d hp
    | some pubv =>
      simp only [_normalize_cluster_template, dlookup_derase]
      simp [hu, hp, hg]

theorem tmpl_none_tls (strict : Bool) (loc : PyVal) (d : Dict)
    (ht : dlookup d "tls_disabled" = Option.none) :
    _normalize_cluster_template strict loc d = Option.none := by
  cases hu : dlookup d "uuid" with
  | none => exact tmpl_none_uuid strict loc d hu
  | some ctid =>
    cases hp : dlookup d "public" with
    | none => exact tmpl_none_public strict loc d hp
    | some pubv =>
      cases hg : dlookup d "registry_enabled" with
      | none => exact tmpl_none_registry strict loc d hg
      | some regv =>
        simp only [_normalize_cluster_template, dlookup_derase]
        simp [hu, hp, hg, ht]

/-- C1 is false as stated: `_normalize_coe_cluster` discards only `links`,
so an upstream `human_id` entry lands in `properties` of the normalized
cluster instead of being dropped. -/
theorem claim_C1_counterexample :
    (_normalize_coe_cluster false (PyVal.vstr "here") exClusterRec).map
        (fun r => dlookup r.properties "human_id")
      = some (some (PyVal.vstr "pretty")) := by decide

/-- C1 (amended): for each normalizer, on success `properties` equals the
upstream record minus exactly the consumed keys, where the discarded noise
is only `links` for clusters, and `links`/`human_id`/`model_name` for
cluster templates and magnum services. -/
theorem claim_C1_amended :
    (∀ strict loc d r, _normalize_coe_cluster strict loc d = some r →
        r.properties = eraseKeys clusterConsumedKeys d)
  ∧ (∀ strict loc d r, _normalize_cluster_template strict loc d = some r →
        r.properties = eraseKeys templateConsumedKeys d)
  ∧ (∀ loc d r, _normalize_magnum_service loc d = some r →
        r.properties = eraseKeys serviceConsumedKeys d) := by
  refine ⟨?_, ?_, ?_⟩
  · intro strict loc d r h
    cases hu : dlookup d "uuid" with
    | none =>
      rw [coe_norm_none strict loc d hu] at h
      exact Option.noConfusion h
    | some cid =>
      rw [coe_norm_eq strict loc d cid hu] at h
      have h2 := Option.some.inj h
      rw [← h2]
  · intro strict loc d r h
    cases hu : dlookup d "uuid" with
    | none =>
      rw [tmpl_none_uuid strict loc d hu] at h
      exact Option.noConfusion h
    | some ctid =>
      cases hp : dlookup d "public" with
      | none =>
        rw [tmpl_none_public strict loc d hp] at h
        exact Option.noConfusion h
      | some pubv =>
        cases hg : dlookup d "registry_enabled" with
        | none =>
          rw [tmpl_none_registry strict loc d hg] at h
          exact Option.noConfusion h
        | some regv =>
          cases ht : dlookup d "tls_disabled" with
          | none =>
            rw [tmpl_none_tls strict loc d ht] at h
            exact Option.noConfusion h
          | some tlsv =>
            rw [tmpl_norm_eq strict loc d ctid pubv regv tlsv hu hp hg ht] at h
            have h3 := finishRequired_some _ _ _ _ h
            rw [h3.2.2, eraseKeys_eraseKeys]
            simp only [templateConsumedKeys]
  · intro loc d r h
    rw [svc_norm_eq loc d] at h
    have h3 := finishRequired_some _ _ _ _ h
    rw [h3.2.2, eraseKeys_eraseKeys]
    simp only [serviceConsumedKeys]

/-- Witness for the amended C1 at concrete records of all three kinds. -/
theorem claim_C1_witness :
    ((_normalize_coe_cluster false (PyVal.vstr "here") exClusterRec).map
        (fun r => r.properties)
      = some (eraseKeys clusterConsumedKeys exClusterRec))
  ∧ ((_normalize_cluster_template false (PyVal.vstr "here") exTemplateBase).map
        (fun r => r.properties)
      = some (eraseKeys templateConsumedKeys exTemplateBase))
  ∧ ((_normalize_magnum_service (PyVal.vstr "here") exServiceRec).map
        (fun r => r.properties)
      = some (eraseKeys serviceConsumedKeys exServiceRec)) := by
  refine ⟨?_, ?_, ?_⟩
  · cases hc : _normalize_coe_cluster false (PyVal.vstr "here") exClusterRec with
    | none => exact absurd hc (by decide)
    | some r => simp [claim_C1_amended.1 false (PyVal.vstr "here") exClusterRec r hc]
  · cases hc : _normalize_cluster_template false (PyVal.vstr "here") exTemplateBase with
    | none => exact absurd hc (by decide)
    | some r => simp [claim_C1_amended.2.1 false (PyVal.vstr "here") exTemplateBase r hc]
  · cases hc : _normalize_magnum_service (PyVal.vstr "here") exServiceRec with
    | none => exact absurd hc (by decide)
    | some r => simp [claim_C1_amended.2.2 (PyVal.vstr "here") exServiceRec r hc]

/-- C2: a cluster-template record lacking any of the 16 required
pass-through keys or `uuid`/`public`/`registry_enabled`/`tls_disabled`
fails to normalize (the pop raises `KeyError`) rather than yielding a
partial record. -/
theorem claim_C2 (strict : Bool) (loc : PyVal) (d : Dict) (k : String)
    (hk : k ∈ templateMandatoryKeys) (hmiss : dlookup d k = Option.none) :
    _normalize_cluster_template strict loc d = Option.none := by
  cases hu : dlookup d "uuid" with
  | none => exact tmpl_none_uuid strict loc d hu
  | some ctid =>
  cases hp : dlookup d "public" with
  | none => exact tmpl_none_public strict loc d hp
  | some pubv =>
  cases hg : dlookup d "registry_enabled" with
  | none => exact tmpl_none_registry strict loc d hg
  | some regv =>
  cases ht : dlookup d "tls_disabled" with
  | none => exact tmpl_none_tls strict loc d ht
  | some tlsv =>
  have hk4 : k ∈ templateRequiredKeys := by
    have hk2 := hk
    simp only [templateMandatoryKeys, List.mem_append, List.mem_cons,
      List.not_mem_nil, or_false] at hk2
    rcases hk2 with (h1 | h1 | h1 | h1) | h1
    · subst h1; rw [hu] at hmiss; exact Option.noConfusion hmiss
    · subst h1; rw [hp] at hmiss; exact Option.noConfusion hmiss
    · subst h1; rw [hg] at hmiss; exact Option.noConfusion hmiss
    · subst h1; rw [ht] at hmiss; exact Option.noConfusion hmiss
    · exact h1
  rw [tmpl_norm_eq strict loc d ctid pubv regv tlsv hu hp hg ht]
  exact finishRequired_fail _ _ _
    (popRequired_fail_of_missing _ _ _ k hk4
      (dlookup_eraseKeys_none _ d k hmiss))

/-- Witness for C2: dropping `coe` from a complete template makes
normalization fail. -/
theorem claim_C2_witness :
    _normalize_cluster_template true (PyVal.vstr "here")
      (derase exTemplateBase "coe") = Option.none :=
  claim_C2 true (PyVal.vstr "here") (derase exTemplateBase "coe") "coe"
    (by decide) (by decide)

theorem dlookup_eraseKeys_mem (ks : List String) (d : Dict) (k : String)
    (h : kmem ks k = true) :
    dlookup (eraseKeys ks d) k = Option.none := by
  simp [dlookup_eraseKeys, h]

theorem dlookup_dinsert (d : Dict) (k k' : String) (v : PyVal) :
    dlookup (dinsert d k' v) k = if k = k' then some v else dlookup d k := by
  by_cases h : k = k'
  · subst h
    simp [dlookup_dinsert_self]
  · simp [dlookup_dinsert_ne d k k' v h, h]

theorem coeRet_id (strict : Bool) (loc cid : PyVal) :
    dlookup (coeRet strict loc cid) "id" = some cid := by
  cases strict <;> simp [coeRet, dlookup_dinsert, dlookup]

theorem coeRet_notmem (strict : Bool) (loc cid : PyVal) (k : String)
    (h : kmem coeRetKeys k = false) :
    dlookup (coeRet strict loc cid) k = Option.none := by
  have hmem : k ∉ coeRetKeys := fun hm => by
    rw [(kmem_iff _ _).mpr hm] at h
    exact Bool.noConfusion h
  simp only [coeRetKeys, List.mem_cons, List.not_mem_nil, or_false] at hmem
  push_neg at hmem
  obtain ⟨n1, n2, n3⟩ := hmem
  cases strict <;>
    simp [coeRet, dlookup, n1, n2, n3, Ne.symm n1, Ne.symm n2, Ne.symm n3]

theorem tmplRet_id (strict : Bool) (loc ctid pubv regv tlsv fip : PyVal) :
    dlookup (tmplRet strict loc ctid pubv regv tlsv fip) "id" = some ctid := by
  cases strict <;> by_cases hf : fip = PyVal.vnone <;>
    simp [tmplRet, dlookup_dinsert, dlookup, hf]

theorem tmplRet_is_public (strict : Bool) (loc ctid pubv regv tlsv fip : PyVal) :
    dlookup (tmplRet strict loc ctid pubv regv tlsv fip) "is_public"
      = some pubv := by
  cases strict <;> by_cases hf : fip = PyVal.vnone <;>
    simp [tmplRet, dlookup_dinsert, dlookup, hf]

theorem tmplRet_is_registry (strict : Bool) (loc ctid pubv regv tlsv fip : PyVal) :
    dlookup (tmplRet strict loc ctid pubv regv tlsv fip) "is_registry_enabled"
      = some regv := by
  cases strict <;> by_cases hf : fip = PyVal.vnone <;>
    simp [tmplRet, dlookup_dinsert, dlookup, hf]

theorem tmplRet_is_tls (strict : Bool) (loc ctid pubv regv tlsv fip : PyVal) :
    dlookup (tmplRet strict loc ctid pubv regv tlsv fip) "is_tls_disabled"
      = some tlsv := by
  cases strict <;> by_cases hf : fip = PyVal.vnone <;>
    simp [tmplRet, dlookup_dinsert, dlookup, hf]

theorem tmplRet_fip (strict : Bool) (loc ctid pubv regv tlsv fip : PyVal) :
    dlookup (tmplRet strict loc ctid pubv regv tlsv fip) "floating_ip_enabled"
      = (if strict then Option.none
         else if fip = PyVal.vnone then Option.none else some fip) := by
  cases strict <;> by_cases hf : fip = PyVal.vnone <;>
    simp [tmplRet, dlookup_dinsert, dlookup, hf]

theorem tmplRet_notmem (strict : Bool) (loc ctid pubv regv tlsv fip : PyVal)
    (k : String) (h : kmem tmplRetKeys k = false) :
    dlookup (tmplRet strict loc ctid pubv regv tlsv fip) k = Option.none := by
  have hmem : k ∉ tmplRetKeys := fun hm => by
    rw [(kmem_iff _ _).mpr hm] at h
    exact Bool.noConfusion h
  simp only [tmplRetKeys, List.mem_cons, List.not_mem_nil, or_false] at hmem
  push_neg at hmem
  obtain ⟨n1, n2, n3, n4, n5, n6, n7, n8, n9, n10⟩ := hmem
  cases strict <;> by_cases hf : fip = PyVal.vnone <;>
    simp [tmplRet, dlookup, hf, Ne.symm n1, Ne.symm n2, Ne.symm n3,
      Ne.symm n4, Ne.symm n5, Ne.symm n6, Ne.symm n7, Ne.symm n8,
      Ne.symm n9, Ne.symm n10]

theorem tmpl_some_fields (strict : Bool) (loc : PyVal) (d : Dict) (r : NormOut)
    (h : _normalize_cluster_template strict loc d = some r) :
    ∃ ctid pubv regv tlsv,
      dlookup d "uuid" = some ctid
      ∧ dlookup d "public" = some pubv
      ∧ dlookup d "registry_enabled" = some regv
      ∧ dlookup d "tls_disabled" = some tlsv
      ∧ (popRequired templateRequiredKeys
          (popOptional templateOptionalKeys
            (tmplRet strict loc ctid pubv regv tlsv
              ((dlookup d "floating_ip_enabled").getD PyVal.vnone))
            (eraseKeys tmplHeadKeys d)).1
          (eraseKeys (tmplHeadKeys ++ templateOptionalKeys) d)).2.2 = true
      ∧ r.fields = (popRequired templateRequiredKeys
          (popOptional templateOptionalKeys
            (tmplRet strict loc ctid pubv regv tlsv
              ((dlookup d "floating_ip_enabled").getD PyVal.vnone))
            (eraseKeys tmplHeadKeys d)).1
          (eraseKeys (tmplHeadKeys ++ templateOptionalKeys) d)).1
      ∧ r.properties = eraseKeys templateConsumedKeys d := by
  cases hu : dlookup d "uuid" with
  | none =>
    rw [tmpl_none_uuid strict loc d hu] at h
    exact Option.noConfusion h
  | some ctid =>
  cases hp : dlookup d "public" with
  | none =>
    rw [tmpl_none_public strict loc d hp] at h
    exact Option.noConfusion h
  | some pubv =>
  cases hg : dlookup d "registry_enabled" with
  | none =>
    rw [tmpl_none_registry strict loc d hg] at h
    exact Option.noConfusion h
  | some regv =>
  cases ht : dlookup d "tls_disabled" with
  | none =>
    rw [tmpl_none_tls strict loc d ht] at h
    exact Option.noConfusion h
  | some tlsv =>
  rw [tmpl_norm_eq strict loc d ctid pubv regv tlsv hu hp hg ht] at h
  have h3 := finishRequired_some _ _ _ _ h
  refine ⟨ctid, pubv, regv, tlsv, rfl, rfl, rfl, rfl, h3.1, h3.2.1, ?_⟩
  rw [h3.2.2, eraseKeys_eraseKeys]
  simp only [templateConsumedKeys]

/-- C9: in `_normalize_coe_cluster` only `uuid` is required: its absence
makes normalization fail; every other Cluster schema key is optional - an
input lacking it still normalizes, and the key appears neither among the
fixed fields (no default is supplied) nor in `properties`. -/
theorem claim_C9 :
    (∀ strict loc d, dlookup d "uuid" = Option.none →
        _normalize_coe_cluster strict loc d = Option.none)
  ∧ (∀ strict loc d cid, dlookup d "uuid" = some cid →
        ∃ r, _normalize_coe_cluster strict loc d = some r)
  ∧ (∀ strict loc d r k, k ∈ clusterOptionalKeys →
        dlookup d k = Option.none →
        _normalize_coe_cluster strict loc d = some r →
        dlookup r.fields k = Option.none
          ∧ dlookup r.properties k = Option.none) := by
  refine ⟨?_, ?_, ?_⟩
  · intro strict loc d hu
    exact coe_norm_none strict loc d hu
  · intro strict loc d cid hu
    exact ⟨_, coe_norm_eq strict loc d cid hu⟩
  · intro strict loc d r k hk hmiss h
    cases hu : dlookup d "uuid" with
    | none =>
      rw [coe_norm_none strict loc d hu] at h
      exact Option.noConfusion h
    | some cid =>
      rw [coe_norm_eq strict loc d cid hu] at h
      have h2 := Option.some.inj h
      have hf : r.fields = (popOptional clusterOptionalKeys (coeRet strict loc cid)
          (eraseKeys ["links", "uuid"] d)).1 := by rw [← h2]
      have hpr : r.properties = eraseKeys clusterConsumedKeys d := by rw [← h2]
      constructor
      · rw [hf, popOptional_ret_in clusterOptionalKeys _ _ k (by decide) hk
            (coeRet_notmem strict loc cid k
              (kmem_false_of_mem_all clusterOptionalKeys coeRetKeys k (by decide) hk))]
        exact dlookup_eraseKeys_none _ d k hmiss
      · rw [hpr]
        exact dlookup_eraseKeys_none _ d k hmiss

/-- Witness for C9: a record with only `status` fails (no `uuid`); one with
`uuid` succeeds; a record lacking `node_count` normalizes with no
`node_count` anywhere in the output. -/
theorem claim_C9_witness :
    (_normalize_coe_cluster true (PyVal.vstr "here")
        [("status", PyVal.vstr "s")] = Option.none)
  ∧ (∃ r, _normalize_coe_cluster true (PyVal.vstr "here") exClusterRec = some r)
  ∧ ((_normalize_coe_cluster true (PyVal.vstr "here") exClusterRec).map
        (fun r => dlookup r.fields "node_count") = some Option.none) := by
  refine ⟨claim_C9.1 true (PyVal.vstr "here") _ (by decide),
    claim_C9.2.1 true (PyVal.vstr "here") exClusterRec (PyVal.vstr "u1") (by decide), ?_⟩
  cases hc : _normalize_coe_cluster true (PyVal.vstr "here") exClusterRec with
  | none => exact absurd hc (by decide)
  | some r =>
    simp [(claim_C9.2.2 true (PyVal.vstr "here") exClusterRec r "node_count"
      (by decide) (by decide) hc).1]

/-- C10 is false as stated for non-strict mode: `pop(key, None)` cannot
distinguish a missing `floating_ip_enabled` from a None-valued one, so a
template carrying `floating_ip_enabled = None` is normalized without the
key even though it was present in the input. -/
theorem claim_C10_counterexample :
    dlookup exTemplateFipNone "floating_ip_enabled" = some PyVal.vnone
  ∧ (_normalize_cluster_template false (PyVal.vstr "here") exTemplateFipNone).map
        (fun r => dlookup r.fields "floating_ip_enabled") = some Option.none
  ∧ (_normalize_cluster_template false (PyVal.vstr "here") exTemplateFipNone).map
        (fun r => dlookup r.properties "floating_ip_enabled") = some Option.none := by
  refine ⟨by decide, by decide, by decide⟩

/-- C10 (amended): in strict mode a successfully normalized template holds
`floating_ip_enabled` neither as a fixed field nor in `properties`; in
non-strict mode it never reaches `properties`, and it is a fixed field
exactly when the input holds the key with a non-None value (a None value
is dropped like a missing key). -/
theorem claim_C10_amended :
    (∀ loc d r, _normalize_cluster_template true loc d = some r →
        dlookup r.fields "floating_ip_enabled" = Option.none
      ∧ dlookup r.properties "floating_ip_enabled" = Option.none)
  ∧ (∀ loc d r, _normalize_cluster_template false loc d = some r →
        dlookup r.properties "floating_ip_enabled" = Option.none
      ∧ dlookup r.fields "floating_ip_enabled"
          = (match dlookup d "floating_ip_enabled" with
             | some v => if v = PyVal.vnone then Option.none else some v
             | Option.none => Option.none)) := by
  constructor
  · intro loc d r h
    obtain ⟨ctid, pubv, regv, tlsv, hu, hp, hg, ht, hok, hf, hpr⟩ :=
      tmpl_some_fields true loc d r h
    constructor
    · rw [hf, popRequired_ret_notin _ _ _ _ (by decide),
        popOptional_ret_notin _ _ _ _ (by decide), tmplRet_fip]
      rfl
    · rw [hpr]
      exact dlookup_eraseKeys_mem _ d _ (by decide)
  · intro loc d r h
    obtain ⟨ctid, pubv, regv, tlsv, hu, hp, hg, ht, hok, hf, hpr⟩ :=
      tmpl_some_fields false loc d r h
    constructor
    · rw [hpr]
      exact dlookup_eraseKeys_mem _ d _ (by decide)
    · rw [hf, popRequired_ret_notin _ _ _ _ (by decide),
        popOptional_ret_notin _ _ _ _ (by decide), tmplRet_fip]
      cases hF : dlookup d "floating_ip_enabled" with
      | none => simp
      | some v => simp

/-- Witness for the amended C10 in both modes, on a template whose
`floating_ip_enabled` is true. -/
theorem claim_C10_witness :
    ((_normalize_cluster_template true (PyVal.vstr "here") exTemplateFipTrue).map
        (fun r => dlookup r.fields "floating_ip_enabled") = some Option.none)
  ∧ ((_normalize_cluster_template false (PyVal.vstr "here") exTemplateFipTrue).map
        (fun r => dlookup r.fields "floating_ip_enabled")
      = some (some (PyVal.vbool true))) := by
  constructor
  · cases hc : _normalize_cluster_template true (PyVal.vstr "here") exTemplateFipTrue with
    | none => exact absurd hc (by decide)
    | some r =>
      simp [(claim_C10_amended.1 (PyVal.vstr "here") exTemplateFipTrue r hc).1]
  · cases hc : _normalize_cluster_template false (PyVal.vstr "here") exTemplateFipTrue with
    | none => exact absurd hc (by decide)
    | some r =>
      have h2 := (claim_C10_amended.2 (PyVal.vstr "here") exTemplateFipTrue r hc).2
      simp only [Option.map, h2]
      decide

theorem dlookup_eraseKeys_notmem (ks : List String) (d : Dict) (k : String)
    (h : kmem ks k = false) :
    dlookup (eraseKeys ks d) k = dlookup d k := by
  simp [dlookup_eraseKeys, h]

theorem not_mem_of_kmem_false (ks : List String) (k : String)
    (h : kmem ks k = false) : k ∉ ks := fun hm => by
  rw [(kmem_iff ks k).mpr hm] at h
  exact Bool.noConfusion h

theorem mlookup_of_props_none (r : NormOut) (k : String)
    (h : dlookup r.properties k = Option.none) :
    mlookup r k = dlookup r.fields k := by
  simp [mlookup, h]

theorem mlookup_of_props_some (r : NormOut) (k : String) (v : PyVal)
    (h : dlookup r.properties k = some v) :
    mlookup r k = some v := by
  simp [mlookup, h]

/-- C3 is false as stated: in strict mode `_normalize_cluster_template`
pops `floating_ip_enabled` and emits it nowhere, so merging the fixed
fields with `properties` loses that upstream value even though it is not
one of `links`/`human_id`/`model_name`. -/
theorem claim_C3_counterexample :
    dlookup exTemplateFipTrue "floating_ip_enabled" = some (PyVal.vbool true)
  ∧ (_normalize_cluster_template true (PyVal.vstr "here") exTemplateFipTrue).map
        (fun r => mlookup r "floating_ip_enabled") = some Option.none := by
  refine ⟨by decide, by decide⟩

/-- C3 (amended): merging a normalized record's fixed fields with its
`properties` (properties last) preserves every upstream value under the
documented renamed key, in both modes, except `links` for clusters,
`links`/`human_id`/`model_name` and - in the way C10 describes -
`floating_ip_enabled` for templates, and the three noise keys for
services; the input is assumed not to use the rename target names
(`id`, `is_public`, `is_registry_enabled`, `is_tls_disabled`) itself. -/
theorem claim_C3_amended :
    (∀ strict loc d r k v, _normalize_coe_cluster strict loc d = some r →
        dlookup d "id" = Option.none →
        dlookup d k = some v → k ≠ "links" →
        mlookup r (renameCluster k) = some v)
  ∧ (∀ strict loc d r k v, _normalize_cluster_template strict loc d = some r →
        dlookup d "id" = Option.none →
        dlookup d "is_public" = Option.none →
        dlookup d "is_registry_enabled" = Option.none →
        dlookup d "is_tls_disabled" = Option.none →
        dlookup d k = some v →
        k ∉ (["links", "human_id", "model_name", "floating_ip_enabled"] : List String) →
        mlookup r (renameTemplate k) = some v)
  ∧ (∀ loc d r k v, _normalize_magnum_service loc d = some r →
        dlookup d k = some v →
        k ∉ (["links", "human_id", "model_name"] : List String) →
        mlookup r k = some v) := by
  refine ⟨?_, ?_, ?_⟩
  · intro strict loc d r k v h hid hkv hkl
    cases hu : dlookup d "uuid" with
    | none =>
      rw [coe_norm_none strict loc d hu] at h
      exact Option.noConfusion h
    | some cid =>
      rw [coe_norm_eq strict loc d cid hu] at h
      have h2 := Option.some.inj h
      have hf : r.fields = (popOptional clusterOptionalKeys (coeRet strict loc cid)
          (eraseKeys ["links", "uuid"] d)).1 := by rw [← h2]
      have hpr : r.properties = eraseKeys clusterConsumedKeys d := by rw [← h2]
      cases hcons : kmem clusterConsumedKeys k with
      | false =>
        have huuid : k ≠ "uuid" := fun he => by
          rw [he] at hcons
          exact absurd hcons (by decide)
        have hrn : renameCluster k = k := by simp [renameCluster, huuid]
        rw [hrn]
        refine mlookup_of_props_some r k v ?_
        rw [hpr, dlookup_eraseKeys_notmem _ _ _ hcons]
        exact hkv
      | true =>
        have hmemc : k ∈ clusterConsumedKeys := (kmem_iff _ _).mp hcons
        have hsplit : k = "uuid" ∨ k ∈ clusterOptionalKeys := by
          simp only [clusterConsumedKeys, List.mem_append, List.mem_cons,
            List.not_mem_nil, or_false] at hmemc
          rcases hmemc with (h1 | h1) | h1
          · exact absurd h1 hkl
          · exact Or.inl h1
          · exact Or.inr h1
        rcases hsplit with h1 | h1
        · subst h1
          have hrn : renameCluster "uuid" = "id" := by simp [renameCluster]
          rw [hrn]
          have hpn : dlookup r.properties "id" = Option.none := by
            rw [hpr, dlookup_eraseKeys_notmem _ _ _ (by decide)]
            exact hid
          rw [mlookup_of_props_none r "id" hpn, hf,
            popOptional_ret_notin _ _ _ _ (by decide), coeRet_id]
          rw [hu] at hkv
          exact hkv
        · have huuid : k ≠ "uuid" := fun he => by
            rw [he] at h1
            exact absurd h1 (by decide)
          have hrn : renameCluster k = k := by simp [renameCluster, huuid]
          rw [hrn]
          have hpn : dlookup r.properties k = Option.none := by
            rw [hpr]
            exact dlookup_eraseKeys_mem _ _ _ hcons
          rw [mlookup_of_props_none r k hpn, hf,
            popOptional_ret_in clusterOptionalKeys _ _ k (by decide) h1
              (coeRet_notmem strict loc cid k
                (kmem_false_of_mem_all clusterOptionalKeys coeRetKeys k (by decide) h1)),
            dlookup_eraseKeys_notmem _ _ _
              (kmem_false_of_mem_all clusterOptionalKeys ["links", "uuid"] k (by decide) h1)]
          exact hkv
  · intro strict loc d r k v h hid hisp hisr hist hkv hnot
    obtain ⟨ctid, pubv, regv, tlsv, hu, hp, hg, ht, hok, hf, hpr⟩ :=
      tmpl_some_fields strict loc d r h
    cases hcons : kmem templateConsumedKeys k with
    | false =>
      have hn1 : k ≠ "uuid" := fun he => by
        rw [he] at hcons; exact absurd hcons (by decide)
      have hn2 : k ≠ "public" := fun he => by
        rw [he] at hcons; exact absurd hcons (by decide)
      have hn3 : k ≠ "registry_enabled" := fun he => by
        rw [he] at hcons; exact absurd hcons (by decide)
      have hn4 : k ≠ "tls_disabled" := fun he => by
        rw [he] at hcons; exact absurd hcons (by decide)
      have hrn : renameTemplate k = k := by simp [renameTemplate, hn1, hn2, hn3, hn4]
      rw [hrn]
      refine mlookup_of_props_some r k v ?_
      rw [hpr, dlookup_eraseKeys_notmem _ _ _ hcons]
      exact hkv
    | true =>
      have hmemc : k ∈ templateConsumedKeys := (kmem_iff _ _).mp hcons
      have hsplit : (k = "uuid" ∨ k = "public" ∨ k = "registry_enabled"
            ∨ k = "tls_disabled")
          ∨ k ∈ templateOptionalKeys ∨ k ∈ templateRequiredKeys := by
        simp only [templateConsumedKeys, tmplHeadKeys, List.mem_append,
          List.mem_cons, List.not_mem_nil, or_false] at hmemc
        rcases hmemc with ((h1 | h1 | h1 | h1 | h1 | h1 | h1 | h1) | h1) | h1
        · exact absurd (by rw [h1]; decide) hnot
        · exact absurd (by rw [h1]; decide) hnot
        · exact absurd (by rw [h1]; decide) hnot
        · exact Or.inl (Or.inl h1)
        · exact Or.inl (Or.inr (Or.inl h1))
        · exact Or.inl (Or.inr (Or.inr (Or.inl h1)))
        · exact Or.inl (Or.inr (Or.inr (Or.inr h1)))
        · exact absurd (by rw [h1]; decide) hnot
        · exact Or.inr (Or.inl h1)
        · exact Or.inr (Or.inr h1)
      rcases hsplit with (h1 | h1 | h1 | h1) | h1 | h1
      · subst h1
        have hrn : renameTemplate "uuid" = "id" := by simp [renameTemplate]
        rw [hrn]
        have hpn : dlookup r.properties "id" = Option.none := by
          rw [hpr, dlookup_eraseKeys_notmem _ _ _ (by decide)]
          exact hid
        rw [mlookup_of_props_none r "id" hpn, hf,
          popRequired_ret_notin _ _ _ _ (by decide),
          popOptional_ret_notin _ _ _ _ (by decide), tmplRet_id]
        rw [hu] at hkv
        exact hkv
      · subst h1
        have hrn : renameTemplate "public" = "is_public" := by simp [renameTemplate]
        rw [hrn]
        have hpn : dlookup r.properties "is_public" = Option.none := by
          rw [hpr, dlookup_eraseKeys_notmem _ _ _ (by decide)]
          exact hisp
        rw [mlookup_of_props_none r "is_public" hpn, hf,
          popRequired_ret_notin _ _ _ _ (by decide),
          popOptional_ret_notin _ _ _ _ (by decide), tmplRet_is_public]
        rw [hp] at hkv
        exact hkv
      · subst h1
        have hrn : renameTemplate "registry_enabled" = "is_registry_enabled" := by
          simp [renameTemplate]
        rw [hrn]
        have hpn : dlookup r.properties "is_registry_enabled" = Option.none := by
          rw [hpr, dlookup_eraseKeys_notmem _ _ _ (by decide)]
          exact hisr
        rw [mlookup_of_props_none r "is_registry_enabled" hpn, hf,
          popRequired_ret_notin _ _ _ _ (by decide),
          popOptional_ret_notin _ _ _ _ (by decide), tmplRet_is_registry]
        rw [hg] at hkv
        exact hkv
      · subst h1
        have hrn : renameTemplate "tls_disabled" = "is_tls_disabled" := by
          simp [renameTemplate]
        rw [hrn]
        have hpn : dlookup r.properties "is_tls_disabled" = Option.none := by
          rw [hpr, dlookup_eraseKeys_notmem _ _ _ (by decide)]
          exact hist
        rw [mlookup_of_props_none r "is_tls_disabled" hpn, hf,
          popRequired_ret_notin _ _ _ _ (by decide),
          popOptional_ret_notin _ _ _ _ (by decide), tmplRet_is_tls]
        rw [ht] at hkv
        exact hkv
      · have hno := not_mem_of_kmem_false _ _
          (kmem_false_of_mem_all templateOptionalKeys
            ["uuid", "public", "registry_enabled", "tls_disabled"] k (by decide) h1)
        simp only [List.mem_cons, List.not_mem_nil, or_false] at hno
        push_neg at hno
        obtain ⟨m1, m2, m3, m4⟩ := hno
        have hrn : renameTemplate k = k := by simp [renameTemplate, m1, m2, m3, m4]
        rw [hrn]
        have hpn : dlookup r.properties k = Option.none := by
          rw [hpr]
          exact dlookup_eraseKeys_mem _ _ _ hcons
        rw [mlookup_of_props_none r k hpn, hf,
          popRequired_ret_notin _ _ _ _
            (kmem_false_of_mem_all templateOptionalKeys templateRequiredKeys k
              (by decide) h1),
          popOptional_ret_in templateOptionalKeys _ _ k (by decide) h1
            (tmplRet_notmem strict loc ctid pubv regv tlsv _ k
              (kmem_false_of_mem_all templateOptionalKeys tmplRetKeys k (by decide) h1)),
          dlookup_eraseKeys_notmem _ _ _
            (kmem_false_of_mem_all templateOptionalKeys tmplHeadKeys k (by decide) h1)]
        exact hkv
      · have hno := not_mem_of_kmem_false _ _
          (kmem_false_of_mem_all templateRequiredKeys
            ["uuid", "public", "registry_enabled", "tls_disabled"] k (by decide) h1)
        simp only [List.mem_cons, List.not_mem_nil, or_false] at hno
        push_neg at hno
        obtain ⟨m1, m2, m3, m4⟩ := hno
        have hrn : renameTemplate k = k := by simp [renameTemplate, m1, m2, m3, m4]
        rw [hrn]
        have hpn : dlookup r.properties k = Option.none := by
          rw [hpr]
          exact dlookup_eraseKeys_mem _ _ _ hcons
        rw [mlookup_of_props_none r k hpn, hf,
          popRequired_ret_in templateRequiredKeys _ _ k (by decide) h1
            (by rw [popOptional_ret_notin _ _ _ _
                (kmem_false_of_mem_all templateRequiredKeys templateOptionalKeys k
                  (by decide) h1)]
                exact tmplRet_notmem strict loc ctid pubv regv tlsv _ k
                  (kmem_false_of_mem_all templateRequiredKeys tmplRetKeys k (by decide) h1))
            hok,
          dlookup_eraseKeys_notmem _ _ _
            (kmem_false_of_mem_all templateRequiredKeys
              (tmplHeadKeys ++ templateOptionalKeys) k (by decide) h1)]
        exact hkv
  · intro loc d r k v h hkv hnot
    rw [svc_norm_eq loc d] at h
    have h3 := finishRequired_some _ _ _ _ h
    have hok := h3.1
    have hf := h3.2.1
    have hpr : r.properties = eraseKeys serviceConsumedKeys d := by
      rw [h3.2.2, eraseKeys_eraseKeys]
      simp only [serviceConsumedKeys]
    cases hcons : kmem serviceConsumedKeys k with
    | false =>
      refine mlookup_of_props_some r k v ?_
      rw [hpr, dlookup_eraseKeys_notmem _ _ _ hcons]
      exact hkv
    | true =>
      have hmemc : k ∈ serviceConsumedKeys := (kmem_iff _ _).mp hcons
      have h1 : k ∈ serviceRequiredKeys := by
        simp only [serviceConsumedKeys, serviceNoiseKeys, List.mem_append,
          List.mem_cons, List.not_mem_nil, or_false] at hmemc
        rcases hmemc with (h1 | h1 | h1) | h1
        · exact absurd (by rw [h1]; decide) hnot
        · exact absurd (by rw [h1]; decide) hnot
        · exact absurd (by rw [h1]; decide) hnot
        · exact h1
      have hpn : dlookup r.properties k = Option.none := by
        rw [hpr]
        exact dlookup_eraseKeys_mem _ _ _ hcons
      have hloc : k ≠ "location" := fun he => by
        rw [he] at h1
        exact absurd h1 (by decide)
      rw [mlookup_of_props_none r k hpn, hf,
        popRequired_ret_in serviceRequiredKeys _ _ k (by decide) h1
          (by simp [dlookup_dinsert, dlookup, hloc, Ne.symm hloc]) hok,
        dlookup_eraseKeys_notmem _ _ _
          (kmem_false_of_mem_all serviceRequiredKeys serviceNoiseKeys k (by decide) h1)]
      exact hkv

/-- Witness for the amended C3 on concrete records of all three kinds. -/
theorem claim_C3_witness :
    ((_normalize_coe_cluster false (PyVal.vstr "here") exClusterRec).map
        (fun r => mlookup r (renameCluster "uuid")) = some (some (PyVal.vstr "u1")))
  ∧ ((_normalize_cluster_template false (PyVal.vstr "here") exTemplateBase).map
        (fun r => mlookup r (renameTemplate "coe"))
      = some (some (PyVal.vstr "kubernetes")))
  ∧ ((_normalize_magnum_service (PyVal.vstr "here") exServiceRec).map
        (fun r => mlookup r "host") = some (some (PyVal.vstr "h1"))) := by
  refine ⟨?_, ?_, ?_⟩
  · cases hc : _normalize_coe_cluster false (PyVal.vstr "here") exClusterRec with
    | none => exact absurd hc (by decide)
    | some r =>
      simp [claim_C3_amended.1 false (PyVal.vstr "here") exClusterRec r "uuid"
        (PyVal.vstr "u1") hc (by decide) (by decide) (by decide)]
  · cases hc : _normalize_cluster_template false (PyVal.vstr "here") exTemplateBase with
    | none => exact absurd hc (by decide)
    | some r =>
      simp [claim_C3_amended.2.1 false (PyVal.vstr "here") exTemplateBase r "coe"
        (PyVal.vstr "kubernetes") hc (by decide) (by decide) (by decide) (by decide)
        (by decide) (by decide)]
  · cases hc : _normalize_magnum_service (PyVal.vstr "here") exServiceRec with
    | none => exact absurd hc (by decide)
    | some r =>
      simp [claim_C3_amended.2.2 (PyVal.vstr "here") exServiceRec r "host"
        (PyVal.vstr "h1") hc (by decide) (by decide)]

theorem coe_work_uuid (d : Dict) :
    dlookup (coe_cluster_work d) "uuid" = Option.none := by
  simp only [coe_cluster_work]
  cases hu : dlookup (derase d "links") "uuid" with
  | none => exact hu
  | some cid =>
    show dlookup (popOptional clusterOptionalKeys []
      (derase (derase d "links") "uuid")).2 "uuid" = Option.none
    rw [popOptional_dict]
    exact dlookup_eraseKeys_none _ _ _ (dlookup_derase_self _ _)

theorem tmpl_work_uuid (d : Dict) :
    dlookup (cluster_template_work d) "uuid" = Option.none := by
  simp only [cluster_template_work]
  cases hu : dlookup (derase (derase (derase d "links") "human_id") "model_name")
      "uuid" with
  | none => exact hu
  | some ctid =>
    cases hp : dlookup (derase (derase (derase (derase d "links") "human_id")
        "model_name") "uuid") "public" with
    | none => exact dlookup_derase_self _ _
    | some pubv =>
      cases hg : dlookup (derase (derase (derase (derase (derase d "links")
          "human_id") "model_name") "uuid") "public") "registry_enabled" with
      | none =>
        show dlookup (derase (derase (derase (derase (derase d "links")
          "human_id") "model_name") "uuid") "public") "uuid" = Option.none
        rw [dlookup_derase_ne _ _ _ (by decide), dlookup_derase_self]
      | some regv =>
        cases ht : dlookup (derase (derase (derase (derase (derase (derase d
            "links") "human_id") "model_name") "uuid") "public")
            "registry_enabled") "tls_disabled" with
        | none =>
          show dlookup (derase (derase (derase (derase (derase (derase d
            "links") "human_id") "model_name") "uuid") "public")
            "registry_enabled") "uuid" = Option.none
          rw [dlookup_derase_ne _ _ _ (by decide),
            dlookup_derase_ne _ _ _ (by decide), dlookup_derase_self]
        | some tlsv =>
          show dlookup (popRequired templateRequiredKeys []
            (popOptional templateOptionalKeys []
              (derase (derase (derase (derase (derase (derase (derase (derase d
                "links") "human_id") "model_name") "uuid") "public")
                "registry_enabled") "tls_disabled") "floating_ip_enabled")).2).2.1
            "uuid" = Option.none
          refine popRequired_dict_none _ _ _ _ ?_
          rw [popOptional_dict]
          refine dlookup_eraseKeys_none _ _ _ ?_
          rw [dlookup_derase_ne _ _ _ (by decide),
            dlookup_derase_ne _ _ _ (by decide),
            dlookup_derase_ne _ _ _ (by decide),
            dlookup_derase_ne _ _ _ (by decide), dlookup_derase_self]

theorem svc_work_binary (d : Dict) :
    dlookup (magnum_service_work d) "binary" = Option.none := by
  simp only [magnum_service_work, serviceRequiredKeys]
  cases hb : dlookup (derase (derase (derase d "links") "human_id")
      "model_name") "binary" with
  | none =>
    rw [popRequired, hb]
    exact hb
  | some v =>
    rw [popRequired, hb]
    exact popRequired_dict_none _ _ _ _ (dlookup_derase_self _ _)

/-- C8: each normalization runs on a `copy()` of the caller's record: the
heap cell holding the original record is unchanged after the call, even
though consumed keys (here `uuid`, resp. `binary`) really are removed from
the working copy allocated at the fresh address. -/
theorem claim_C8 (strict : Bool) (loc : PyVal) (h : Heap) (a : Nat)
    (ha : a < h.next) :
    ((_normalize_coe_cluster_heap strict loc h a).1.store a = h.store a
      ∧ (_normalize_cluster_template_heap strict loc h a).1.store a = h.store a
      ∧ (_normalize_magnum_service_heap loc h a).1.store a = h.store a)
    ∧ (dlookup ((_normalize_coe_cluster_heap strict loc h a).1.store h.next)
          "uuid" = Option.none
      ∧ dlookup ((_normalize_cluster_template_heap strict loc h a).1.store h.next)
          "uuid" = Option.none
      ∧ dlookup ((_normalize_magnum_service_heap loc h a).1.store h.next)
          "binary" = Option.none) := by
  have hne : a ≠ h.next := Nat.ne_of_lt ha
  refine ⟨⟨?_, ?_, ?_⟩, ?_, ?_, ?_⟩
  · simp [_normalize_coe_cluster_heap, allocH, writeH, readH, hne]
  · simp [_normalize_cluster_template_heap, allocH, writeH, readH, hne]
  · simp [_normalize_magnum_service_heap, allocH, writeH, readH, hne]
  · simp [_normalize_coe_cluster_heap, allocH, writeH, readH, coe_work_uuid]
  · simp [_normalize_cluster_template_heap, allocH, writeH, readH, tmpl_work_uuid]
  · simp [_normalize_magnum_service_heap, allocH, writeH, readH, svc_work_binary]

/-- Witness for C8 on a one-object heap holding a concrete record. -/
theorem claim_C8_witness :
    0 < (Heap.mk (fun _ => exClusterRec) 1).next
  ∧ (_normalize_coe_cluster_heap false (PyVal.vstr "here")
        (Heap.mk (fun _ => exClusterRec) 1) 0).1.store 0
      = (Heap.mk (fun _ => exClusterRec) 1).store 0
  ∧ dlookup ((_normalize_coe_cluster_heap false (PyVal.vstr "here")
        (Heap.mk (fun _ => exClusterRec) 1) 0).1.store 1) "uuid" = Option.none := by
  have h2 := claim_C8 false (PyVal.vstr "here")
    (Heap.mk (fun _ => exClusterRec) 1) 0 (by decide)
  exact ⟨by decide, h2.1.1, h2.2.1⟩

/-- C4 is false as stated: with an empty (invalid) cluster cache, deleting
a nonexistent cluster returns False and issues no upstream delete, yet the
cache is not left untouched - the resolution read populates it. -/
theorem claim_C4_counterexample :
    (delete_coe_cluster stColdCache "ghost").2 = false
  ∧ (delete_coe_cluster stColdCache "ghost").1.clusterDeleteCalls = []
  ∧ (delete_coe_cluster stColdCache "ghost").1.clusterCache
      ≠ stColdCache.clusterCache := by
  refine ⟨by decide, by decide, by decide⟩

/-- C4 (amended): when the name resolves to no cluster,
`delete_coe_cluster` returns False, issues no upstream delete, and does
not invalidate the cache (an already-populated cache is left unchanged;
an empty one may be populated by the resolution read); when the name
resolves, it issues the upstream delete, invalidates the cache, and
returns True. -/
theorem claim_C4_amended (s : CloudSt) (n : String) :
    (resolveEntity (effectiveClusters s) n = Option.none →
        (delete_coe_cluster s n).2 = false
      ∧ (delete_coe_cluster s n).1.clusterDeleteCalls = s.clusterDeleteCalls
      ∧ (∀ l, s.clusterCache = some l →
            (delete_coe_cluster s n).1.clusterCache = some l))
  ∧ (∀ c, resolveEntity (effectiveClusters s) n = some c →
        (delete_coe_cluster s n).2 = true
      ∧ (delete_coe_cluster s n).1.clusterDeleteCalls
          = s.clusterDeleteCalls ++ [c]
      ∧ (delete_coe_cluster s n).1.clusterCache = Option.none) := by
  cases hc : s.clusterCache with
  | none =>
    constructor
    · intro hr
      simp only [effectiveClusters, hc] at hr
      simp [delete_coe_cluster, get_coe_cluster, list_coe_clusters, hc, hr]
    · intro c hr
      simp only [effectiveClusters, hc] at hr
      simp [delete_coe_cluster, get_coe_cluster, list_coe_clusters, hc, hr,
        proxy_delete_cluster, invalidateClusterCache]
  | some l0 =>
    constructor
    · intro hr
      simp only [effectiveClusters, hc] at hr
      simp [delete_coe_cluster, get_coe_cluster, list_coe_clusters, hc, hr]
    · intro c hr
      simp only [effectiveClusters, hc] at hr
      simp [delete_coe_cluster, get_coe_cluster, list_coe_clusters, hc, hr,
        proxy_delete_cluster, invalidateClusterCache]

/-- Witness for the amended C4: both branches at a warm-cache state. -/
theorem claim_C4_witness :
    ((delete_coe_cluster stWarmClusters "ghost").2 = false
      ∧ (delete_coe_cluster stWarmClusters "ghost").1.clusterCache
          = some [Rec.mk "u1" "c1"])
  ∧ ((delete_coe_cluster stWarmClusters "c1").2 = true
      ∧ (delete_coe_cluster stWarmClusters "c1").1.clusterCache
          = Option.none) := by
  constructor
  · have h2 := (claim_C4_amended stWarmClusters "ghost").1 (by decide)
    exact ⟨h2.1, h2.2.2 [Rec.mk "u1" "c1"] rfl⟩
  · have h2 := (claim_C4_amended stWarmClusters "c1").2 (Rec.mk "u1" "c1")
      (by decide)
    exact ⟨h2.1, h2.2.2⟩

/-- C5: when resolution fails, both update operations raise a "not found"
error whose message embeds the supplied name-or-id and issue no upstream
update call; `update_coe_cluster` invalidates the cluster cache before
resolving, so its outcome does not depend on the prior cache contents
(it resolves against the upstream list). -/
theorem claim_C5 (s : CloudSt) (n : String) :
    (resolveEntity s.upstreamClusters n = Option.none →
        (update_coe_cluster s n).2
            = Except.error (String.append (String.append "COE cluster " n)
                " not found.")
      ∧ (∃ p q, String.append (String.append "COE cluster " n) " not found."
            = String.append (String.append p n) q)
      ∧ (update_coe_cluster s n).1.clusterUpdateCalls = s.clusterUpdateCalls)
  ∧ (resolveEntity (effectiveTemplates s) n = Option.none →
        (update_cluster_template s n).2
            = Except.error (String.append (String.append "Cluster template " n)
                " not found.")
      ∧ (∃ p q, String.append (String.append "Cluster template " n) " not found."
            = String.append (String.append p n) q)
      ∧ (update_cluster_template s n).1.templateUpdateCalls
          = s.templateUpdateCalls)
  ∧ (∀ c, update_coe_cluster {s with clusterCache := c} n
        = update_coe_cluster s n) := by
  refine ⟨?_, ?_, ?_⟩
  · intro hr
    refine ⟨?_, ⟨"COE cluster ", " not found.", rfl⟩, ?_⟩ <;>
      simp [update_coe_cluster, invalidateClusterCache, get_coe_cluster,
        list_coe_clusters, hr]
  · intro hr
    cases hc : s.templateCache with
    | none =>
      simp only [effectiveTemplates, hc] at hr
      refine ⟨?_, ⟨"Cluster template ", " not found.", rfl⟩, ?_⟩ <;>
        simp [update_cluster_template, get_cluster_template,
          list_cluster_templates, hc, hr]
    | some l0 =>
      simp only [effectiveTemplates, hc] at hr
      refine ⟨?_, ⟨"Cluster template ", " not found.", rfl⟩, ?_⟩ <;>
        simp [update_cluster_template, get_cluster_template,
          list_cluster_templates, hc, hr]
  · intro c
    rfl

/-- Witness for C5 at concrete states with an unresolvable name. -/
theorem claim_C5_witness :
    ((update_coe_cluster stWarmClusters "ghost").2
        = Except.error (String.append (String.append "COE cluster " "ghost")
            " not found.")
      ∧ (update_coe_cluster stWarmClusters "ghost").1.clusterUpdateCalls = [])
  ∧ ((update_cluster_template stWarmTemplates "ghost").2
        = Except.error (String.append (String.append "Cluster template " "ghost")
            " not found.")
      ∧ (update_cluster_template stWarmTemplates "ghost").1.templateUpdateCalls
          = []) := by
  constructor
  · have h2 := (claim_C5 stWarmClusters "ghost").1 (by decide)
    exact ⟨h2.1, h2.2.2⟩
  · have h2 := (claim_C5 stWarmTemplates "ghost").2.1 (by decide)
    exact ⟨h2.1, h2.2.2⟩

/-- C6: `create_coe_cluster` invalidates the cluster-list cache after the
upstream create, so an immediately following `list_coe_clusters` refetches
the post-create upstream list (which includes the new cluster) instead of
returning any pre-create cached list. -/
theorem claim_C6 (s : CloudSt) (nm tid : String) :
    ((create_coe_cluster s nm tid).1.clusterCache = Option.none)
  ∧ ((list_coe_clusters (create_coe_cluster s nm tid).1).2
        = s.upstreamClusters ++ [(create_coe_cluster s nm tid).2])
  ∧ (∀ l, s.clusterCache = some l → l = s.upstreamClusters →
        (list_coe_clusters (create_coe_cluster s nm tid).1).2 ≠ l) := by
  refine ⟨rfl, rfl, ?_⟩
  intro l hl he hq
  subst he
  have hlen := congrArg List.length hq
  simp [create_coe_cluster, proxy_create_cluster, invalidateClusterCache,
    list_coe_clusters] at hlen

/-- Witness for C6 at a warm coherent state. -/
theorem claim_C6_witness :
    ((create_coe_cluster stWarmClusters "c2" "tpl").1.clusterCache = Option.none)
  ∧ ((list_coe_clusters (create_coe_cluster stWarmClusters "c2" "tpl").1).2
        ≠ [Rec.mk "u1" "c1"]) := by
  have h2 := claim_C6 stWarmClusters "c2" "tpl"
  exact ⟨h2.1, h2.2.2 [Rec.mk "u1" "c1"] rfl rfl⟩

/-- C7 is false as stated: deleting an existing template succeeds and the
upstream delete is issued, but the template-list cache is not invalidated,
and an immediately following `list_cluster_templates` still returns the
deleted template from the cache. -/
theorem claim_C7_counterexample :
    (delete_cluster_template stWarmTemplates "t1").2 = true
  ∧ (delete_cluster_template stWarmTemplates "t1").1.templateDeleteCalls
      = [Rec.mk "t1" "tmpl"]
  ∧ (delete_cluster_template stWarmTemplates "t1").1.templateCache
      = some [Rec.mk "t1" "tmpl"]
  ∧ (list_cluster_templates
      (delete_cluster_template stWarmTemplates "t1").1).2
      = [Rec.mk "t1" "tmpl"] := by
  refine ⟨by decide, by decide, by decide, by decide⟩

/-- C7 (amended): when the name resolves, `delete_cluster_template`
deletes upstream and returns True, but does not invalidate the template
cache: the cache afterwards still holds the resolved list (containing the
deleted template), and a subsequent `list_cluster_templates` returns that
stale list. -/
theorem claim_C7_amended (s : CloudSt) (n : String) (c : Rec)
    (hr : resolveEntity (effectiveTemplates s) n = some c) :
    (delete_cluster_template s n).2 = true
  ∧ (delete_cluster_template s n).1.templateDeleteCalls
      = s.templateDeleteCalls ++ [c]
  ∧ (delete_cluster_template s n).1.templateCache
      = some (effectiveTemplates s)
  ∧ (list_cluster_templates (delete_cluster_template s n).1).2
      = effectiveTemplates s
  ∧ c ∈ effectiveTemplates s := by
  cases hc : s.templateCache with
  | none =>
    simp only [effectiveTemplates, hc] at hr ⊢
    refine ⟨?_, ?_, ?_, ?_, List.mem_of_find?_eq_some hr⟩ <;>
      simp [delete_cluster_template, get_cluster_template,
        list_cluster_templates, hc, hr, proxy_delete_cluster_template]
  | some l0 =>
    simp only [effectiveTemplates, hc] at hr ⊢
    refine ⟨?_, ?_, ?_, ?_, List.mem_of_find?_eq_some hr⟩ <;>
      simp [delete_cluster_template, get_cluster_template,
        list_cluster_templates, hc, hr, proxy_delete_cluster_template]

/-- Witness for the amended C7 at a warm coherent template state. -/
theorem claim_C7_witness :
    (delete_cluster_template stWarmTemplates "tmpl").2 = true
  ∧ (delete_cluster_template stWarmTemplates "tmpl").1.templateCache
      = some (effectiveTemplates stWarmTemplates) := by
  have h2 := claim_C7_amended stWarmTemplates "tmpl" (Rec.mk "t1" "tmpl")
    (by decide)
  exact ⟨h2.1, h2.2.2.1⟩
